import Mathlib

/-!
Shallow embedding of the order-creation and inventory workflow of the
Optica POS backend (FastAPI + SQLAlchemy).

Modelling conventions:
* Money (Python float columns price, total_amount, price_at_time) is ℚ.
* Python ints (stock, quantity) are Int: they may go negative.
* datetime.utcnow() is a tick DB.now : Nat; an operation stamps updated_at
  with the current tick when (and only when) the source assigns it.
* The SQLAlchemy session is modelled by explicit state passing: the
  observable database only changes at commit; db.rollback() returns the
  pre-request state, which the error branches do.
* HTTP errors are the ApiError type.  The blanket except-Exception handler
  in create_order catches the HTTPExceptions raised inside the try block
  (HTTPException is an Exception subclass) and re-raises them as status
  400 with detail str(e); starlette renders str(HTTPException) as
  "code: detail", which errStr reproduces.
* In update_lab_order_status and update_order_status the str parameter
  named status shadows the imported fastapi status module, so evaluating
  status.HTTP_400_BAD_REQUEST / status.HTTP_404_NOT_FOUND raises an
  uncaught AttributeError; the app-level Exception handler turns it into
  an HTTP 500.  This is the ApiError.internal constructor.
-/

deriving instance DecidableEq for Except

namespace OpticaPos

/-- Row of the products table (models.py, class Product). -/
structure Product where
  id : Nat
  name : String
  description : Option String
  price : ℚ
  stock : Int
  updated_at : Nat
deriving DecidableEq

/-- Row of the orders table (models.py, class Order).  user_id is a nullable
foreign key; create_order never assigns it. -/
structure OrderRow where
  id : Nat
  user_id : Option Nat
  total_amount : ℚ
  status : String
  updated_at : Nat
deriving DecidableEq

/-- Row of the order_items association table (models.py, Table order_items).
quantity and price_at_time are nullable columns; the plain secondary
relationship Order.products only ever writes order_id and product_id, so
both stay none. -/
structure OrderItemRow where
  order_id : Nat
  product_id : Nat
  quantity : Option Int
  price_at_time : Option ℚ
deriving DecidableEq

/-- Pydantic PrescriptionCreate payload (models.py). -/
structure PrescriptionCreate where
  right_eye_sphere : String
  right_eye_cylinder : String
  right_eye_axis : String
  right_eye_add : Option String
  left_eye_sphere : String
  left_eye_cylinder : String
  left_eye_axis : String
  left_eye_add : Option String
  material : String
  treatment : String
  requires_add : Bool
  notes : Option String
deriving DecidableEq

/-- Row of the prescriptions table; data holds the fields copied from the
payload by Prescription(order_id=..., **order.prescription.dict()). -/
structure PrescriptionRow where
  id : Nat
  order_id : Nat
  data : PrescriptionCreate
deriving DecidableEq

/-- Row of the lab_orders table (models.py, class LabOrder). -/
structure LabOrderRow where
  id : Nat
  prescription_id : Nat
  status : String
  notes : Option String
  updated_at : Nat
deriving DecidableEq

/-- Pydantic OrderItemBase: one requested line (product_id, quantity). -/
structure OrderItemBase where
  product_id : Nat
  quantity : Int
deriving DecidableEq

/-- Pydantic OrderCreate request body. -/
structure OrderCreate where
  items : List OrderItemBase
  prescription : Option PrescriptionCreate
deriving DecidableEq

/-- Pydantic ProductCreate, also used as the update payload of
update_product. -/
structure ProductCreate where
  name : String
  description : Option String
  price : ℚ
  stock : Int
deriving DecidableEq

/-- Pydantic OrderResponse (models.py): user_id is declared as a plain
required int, although the Order row's user_id column is nullable and never
set by create_order. -/
structure OrderResponse where
  id : Nat
  user_id : Nat
  total_amount : ℚ
  status : String
  updated_at : Nat
deriving DecidableEq

/-- orm_mode serialisation of an Order row into OrderResponse: the required
user_id field cannot be produced from a NULL column. -/
def orderResponseOfOrder (o : OrderRow) : Option OrderResponse :=
  o.user_id.map (fun u =>
    { id := o.id, user_id := u, total_amount := o.total_amount,
      status := o.status, updated_at := o.updated_at })

/-- HTTP-level outcome of a failed request. -/
inductive ApiError where
  | notFound (detail : String)
  | badRequest (detail : String)
  | internal (detail : String)
deriving DecidableEq

/-- str(HTTPException) as rendered by starlette: "status_code: detail". -/
def errStr : ApiError → String
  | .notFound d => "404: " ++ d
  | .badRequest d => "400: " ++ d
  | .internal d => d

/-- The database state observable between requests. -/
structure DB where
  products : List Product
  orders : List OrderRow
  order_items : List OrderItemRow
  prescriptions : List PrescriptionRow
  lab_orders : List LabOrderRow
  next_order_id : Nat
  next_prescription_id : Nat
  now : Nat
deriving DecidableEq

/-- db.query(Product).filter(Product.id == product_id).first() -/
def findProduct (ps : List Product) (pid : Nat) : Option Product :=
  ps.find? (fun p => p.id == pid)

/-- In-place mutation of the row with the given primary key (the session
identity map holds one object per id; ids are unique by primary key). -/
def updateProductRow (ps : List Product) (pid : Nat) (f : Product → Product) :
    List Product :=
  ps.map (fun p => if p.id == pid then f p else p)

/-- product.stock -= item.quantity seen as a functional update. -/
def setStock (ps : List Product) (pid : Nat) (s : Int) : List Product :=
  updateProductRow ps pid (fun p => { p with stock := s })

/-- The validation/mutation loop of create_order (pos.py lines 75-91):
threads the session's working product rows, the running total and the list
of product ids appended to order_products. -/
def run_items : List Product → List OrderItemBase → ℚ → List Nat →
    Except ApiError (List Product × ℚ × List Nat)
  | ps, [], total, acc => .ok (ps, total, acc)
  | ps, item :: rest, total, acc =>
    match findProduct ps item.product_id with
    | none =>
      .error (.notFound ("Product with id " ++ toString item.product_id ++ " not found"))
    | some p =>
      if p.stock < item.quantity then
        .error (.badRequest ("Insufficient stock for product " ++ p.name))
      else
        run_items (setStock ps item.product_id (p.stock - item.quantity)) rest
          (total + p.price * (item.quantity : ℚ)) (acc ++ [item.product_id])

/-- POST /orders (pos.py create_order).  On any exception inside the try
block the session is rolled back (state unchanged) and the exception is
re-raised as HTTPException(400, str(e)).  On success the order row (user_id
never assigned, status "pending"), the association rows (only the two
foreign keys are populated by the secondary relationship) and the optional
prescription row are committed together. -/
def create_order (db : DB) (order : OrderCreate) : Except ApiError OrderRow × DB :=
  match run_items db.products order.items 0 [] with
  | .error e => (.error (.badRequest (errStr e)), db)
  | .ok (ps, total, pids) =>
    let oid := db.next_order_id
    let db_order : OrderRow :=
      { id := oid, user_id := none, total_amount := total,
        status := "pending", updated_at := db.now }
    let rows : List OrderItemRow :=
      pids.map (fun pid =>
        { order_id := oid, product_id := pid, quantity := none, price_at_time := none })
    let prescRows : List PrescriptionRow :=
      match order.prescription with
      | none => []
      | some pc => [{ id := db.next_prescription_id, order_id := oid, data := pc }]
    (.ok db_order,
      { db with
          products := ps,
          orders := db.orders ++ [db_order],
          order_items := db.order_items ++ rows,
          prescriptions := db.prescriptions ++ prescRows,
          next_order_id := oid + 1,
          next_prescription_id := db.next_prescription_id + prescRows.length })

/-- valid_operations of update_stock (inventory.py line 127). -/
def valid_operations : List String := ["increase", "decrease"]

/-- PATCH /inventory/product_id/stock (inventory.py update_stock). -/
def update_stock (db : DB) (product_id : Nat) (quantity : Int) (operation : String) :
    Except ApiError (String × Int) × DB :=
  if operation ∉ valid_operations then
    (.error (.badRequest ("Invalid operation. Must be one of: " ++
      String.intercalate ", " valid_operations)), db)
  else
    match findProduct db.products product_id with
    | none => (.error (.notFound "Product not found"), db)
    | some p =>
      if operation = "decrease" ∧ p.stock < quantity then
        (.error (.badRequest "Insufficient stock"), db)
      else
        let new_stock : Int :=
          if operation = "increase" then p.stock + quantity else p.stock - quantity
        let ps := updateProductRow db.products product_id
          (fun r => { r with stock := new_stock, updated_at := db.now })
        (.ok ("Stock updated successfully", new_stock), { db with products := ps })

/-- PUT /inventory/product_id (inventory.py update_product): overwrites
name, description, price and stock from the payload with no guard on the
new stock value. -/
def update_product (db : DB) (product_id : Nat) (pu : ProductCreate) :
    Except ApiError Product × DB :=
  match findProduct db.products product_id with
  | none => (.error (.notFound "Product not found"), db)
  | some p =>
    if pu.name ≠ p.name ∧ (db.products.find? (fun q => q.name == pu.name)).isSome then
      (.error (.badRequest "Product with this name already exists"), db)
    else
      let upd : Product → Product := fun r =>
        { r with name := pu.name, description := pu.description,
                 price := pu.price, stock := pu.stock, updated_at := db.now }
      (.ok (upd p), { db with products := updateProductRow db.products product_id upd })

/-- valid_statuses of update_lab_order_status (lab_orders.py line 95). -/
def lab_valid_statuses : List String :=
  ["pending", "in-progress", "completed", "cancelled"]

/-- PUT /lab-orders/lab_order_id/status (lab_orders.py
update_lab_order_status).  Both error branches evaluate an attribute of the
str parameter status (which shadows the fastapi status module), raising an
uncaught AttributeError that the app-wide Exception handler maps to
HTTP 500; no database write has happened at that point. -/
def update_lab_order_status (db : DB) (lab_order_id : Nat) (status : String) :
    Except ApiError String × DB :=
  if status ∉ lab_valid_statuses then
    (.error (.internal "AttributeError: str object has no attribute HTTP_400_BAD_REQUEST"), db)
  else
    match db.lab_orders.find? (fun lo => lo.id == lab_order_id) with
    | none =>
      (.error (.internal "AttributeError: str object has no attribute HTTP_404_NOT_FOUND"), db)
    | some _ =>
      let los := db.lab_orders.map (fun lo =>
        if lo.id == lab_order_id then
          { lo with status := status, updated_at := db.now }
        else lo)
      (.ok "Lab order status updated successfully", { db with lab_orders := los })

/-- valid_statuses of update_order_status (pos.py line 156). -/
def order_valid_statuses : List String := ["pending", "completed", "cancelled"]

/-- PUT /orders/order_id/status (pos.py update_order_status).  The same
status-parameter shadowing as in update_lab_order_status makes both error
branches raise AttributeError (HTTP 500).  The assignment branch sets the
requested status without inspecting the current one. -/
def update_order_status (db : DB) (order_id : Nat) (status : String) :
    Except ApiError String × DB :=
  if status ∉ order_valid_statuses then
    (.error (.internal "AttributeError: str object has no attribute HTTP_400_BAD_REQUEST"), db)
  else
    match db.orders.find? (fun o => o.id == order_id) with
    | none =>
      (.error (.internal "AttributeError: str object has no attribute HTTP_404_NOT_FOUND"), db)
    | some _ =>
      let os := db.orders.map (fun o =>
        if o.id == order_id then
          { o with status := status, updated_at := db.now }
        else o)
      (.ok "Order status updated successfully", { db with orders := os })

/-- The computed price contribution of one request line: the price of the
referenced product times the requested quantity (0 for an absent product). -/
def linePrice (ps : List Product) (it : OrderItemBase) : ℚ :=
  match findProduct ps it.product_id with
  | some p => p.price * (it.quantity : ℚ)
  | none => 0

section FindMapLemmas

variable {α : Type}

/-- Updating exactly the rows matched by a predicate commutes with find?,
provided the update preserves the predicate. -/
theorem find_map_upd_self (l : List α) (pr : α → Bool) (f : α → α)
    (hf : ∀ a, pr (f a) = pr a) :
    (l.map (fun a => if pr a then f a else a)).find? pr = (l.find? pr).map f := by
  induction l with
  | nil => rfl
  | cons a l ih =>
    simp only [List.map_cons]
    by_cases h : pr a = true
    · rw [if_pos h, List.find?_cons_of_pos _ (by rw [hf]; exact h),
        List.find?_cons_of_pos _ h, Option.map_some']
    · rw [if_neg h, List.find?_cons_of_neg _ (by simpa using h),
        List.find?_cons_of_neg _ (by simpa using h), ih]

/-- A row update driven by one predicate is invisible to a disjoint find?
predicate that the update preserves. -/
theorem find_map_upd_other (l : List α) (pr pr' : α → Bool) (f : α → α)
    (hf : ∀ a, pr' (f a) = pr' a) (hd : ∀ a, pr' a = true → pr a = false) :
    (l.map (fun a => if pr a then f a else a)).find? pr' = l.find? pr' := by
  induction l with
  | nil => rfl
  | cons a l ih =>
    simp only [List.map_cons]
    by_cases h' : pr' a = true
    · have hpa : pr a = false := hd a h'
      rw [if_neg (by simp [hpa]), List.find?_cons_of_pos _ h', List.find?_cons_of_pos _ h']
    · by_cases h : pr a = true
      · rw [if_pos h, List.find?_cons_of_neg _ (by rw [hf]; simpa using h'),
          List.find?_cons_of_neg _ (by simpa using h'), ih]
      · rw [if_neg h, List.find?_cons_of_neg _ (by simpa using h'),
          List.find?_cons_of_neg _ (by simpa using h'), ih]

end FindMapLemmas

/-- findProduct after updateProductRow at the same id. -/
theorem findProduct_update_self (ps : List Product) (pid : Nat) (f : Product → Product)
    (hf : ∀ p, (f p).id = p.id) :
    findProduct (updateProductRow ps pid f) pid = (findProduct ps pid).map f := by
  unfold findProduct updateProductRow
  exact find_map_upd_self ps (fun p => p.id == pid) f (fun a => by simp [hf])

/-- findProduct after updateProductRow at a different id. -/
theorem findProduct_update_other (ps : List Product) (pid pid' : Nat) (f : Product → Product)
    (hf : ∀ p, (f p).id = p.id) (h : pid' ≠ pid) :
    findProduct (updateProductRow ps pid f) pid' = findProduct ps pid' := by
  unfold findProduct updateProductRow
  exact find_map_upd_other ps (fun p => p.id == pid) (fun p => p.id == pid') f
    (fun a => by simp [hf])
    (fun a ha => by
      simp only [beq_iff_eq] at ha
      simp only [beq_eq_false_iff_ne, ne_eq]
      rw [ha]
      exact h)

/-- findProduct after setStock at the same id. -/
theorem findProduct_setStock_self (ps : List Product) (pid : Nat) (s : Int) :
    findProduct (setStock ps pid s) pid =
      (findProduct ps pid).map (fun p => { p with stock := s }) :=
  findProduct_update_self ps pid _ (fun _ => rfl)

/-- findProduct after setStock at a different id. -/
theorem findProduct_setStock_other (ps : List Product) (pid pid' : Nat) (s : Int)
    (h : pid' ≠ pid) :
    findProduct (setStock ps pid s) pid' = findProduct ps pid' :=
  findProduct_update_other ps pid pid' _ (fun _ => rfl) h

/-- Row updates that keep every stock non-negative preserve the
all-stocks-non-negative invariant. -/
theorem updateProductRow_stock_nonneg (ps : List Product) (pid : Nat) (f : Product → Product)
    (hps : ∀ p ∈ ps, 0 ≤ p.stock) (hf : ∀ p ∈ ps, 0 ≤ (f p).stock) :
    ∀ p' ∈ updateProductRow ps pid f, 0 ≤ p'.stock := by
  intro p' hp'
  unfold updateProductRow at hp'
  obtain ⟨q, hq, rfl⟩ := List.mem_map.mp hp'
  by_cases h : q.id == pid
  · rw [if_pos h]; exact hf q hq
  · rw [if_neg h]; exact hps q hq

/-- The create_order validation loop only ever lowers a stock to a value its
guard has just checked to dominate the quantity, so it preserves the
all-stocks-non-negative invariant. -/
theorem run_items_stock_nonneg (items : List OrderItemBase) :
    ∀ (ps : List Product) (total : ℚ) (acc : List Nat) (ps' : List Product) (total' : ℚ)
      (acc' : List Nat),
      run_items ps items total acc = .ok (ps', total', acc') →
      (∀ p ∈ ps, 0 ≤ p.stock) → ∀ p' ∈ ps', 0 ≤ p'.stock := by
  induction items with
  | nil =>
    intro ps total acc ps' total' acc' h hps
    simp only [run_items, Except.ok.injEq, Prod.mk.injEq] at h
    obtain ⟨h1, -, -⟩ := h
    subst h1
    exact hps
  | cons it rest ih =>
    intro ps total acc ps' total' acc' h hps
    cases hfp : findProduct ps it.product_id with
    | none => simp only [run_items, hfp] at h; cases h
    | some p =>
      simp only [run_items, hfp] at h
      by_cases hlt : p.stock < it.quantity
      · rw [if_pos hlt] at h; cases h
      · rw [if_neg hlt] at h
        refine ih _ _ _ _ _ _ h ?_
        refine updateProductRow_stock_nonneg _ _ _ hps ?_
        intro q hq
        simp only [not_lt] at hlt
        have hp0 : 0 ≤ p.stock := hps p (List.mem_of_find?_eq_some hfp)
        simpa using sub_nonneg.mpr hlt

/-- Successful run of the create_order validation loop under the conditions
of the success scenario: every referenced product is found and each line's
quantity is within the stock the loop sees for it.  Characterises the
returned working rows, the accumulated total and the accumulated product
ids. -/
theorem run_items_ok_of_valid (items : List OrderItemBase) :
    ∀ (ps : List Product) (total : ℚ) (acc : List Nat),
      (items.map OrderItemBase.product_id).Nodup →
      (∀ it ∈ items, ∃ p, findProduct ps it.product_id = some p ∧ it.quantity ≤ p.stock) →
      ∃ ps', run_items ps items total acc =
          .ok (ps', total + (items.map (linePrice ps)).sum,
            acc ++ items.map OrderItemBase.product_id) ∧
        (∀ it ∈ items, ∀ p, findProduct ps it.product_id = some p →
          findProduct ps' it.product_id = some { p with stock := p.stock - it.quantity }) ∧
        (∀ pid, pid ∉ items.map OrderItemBase.product_id →
          findProduct ps' pid = findProduct ps pid) := by
  induction items with
  | nil =>
    intro ps total acc _ _
    exact ⟨ps, by simp [run_items], by simp, fun pid _ => rfl⟩
  | cons it rest ih =>
    intro ps total acc hnd hval
    obtain ⟨p, hp, hle⟩ := hval it (List.mem_cons_self it rest)
    rw [List.map_cons, List.nodup_cons] at hnd
    obtain ⟨hni, hnd'⟩ := hnd
    have hfind_other : ∀ pid, pid ≠ it.product_id →
        findProduct (setStock ps it.product_id (p.stock - it.quantity)) pid =
          findProduct ps pid :=
      fun pid hne => findProduct_setStock_other ps it.product_id pid _ hne
    have hval' : ∀ it' ∈ rest, ∃ p',
        findProduct (setStock ps it.product_id (p.stock - it.quantity)) it'.product_id =
          some p' ∧ it'.quantity ≤ p'.stock := by
      intro it' hmem
      obtain ⟨p', hp', hle'⟩ := hval it' (List.mem_cons_of_mem it hmem)
      have hne : it'.product_id ≠ it.product_id := by
        intro he
        exact hni (he ▸ List.mem_map_of_mem OrderItemBase.product_id hmem)
      exact ⟨p', by rw [hfind_other it'.product_id hne]; exact hp', hle'⟩
    obtain ⟨ps', hrun, hdec, hother⟩ :=
      ih (setStock ps it.product_id (p.stock - it.quantity))
        (total + p.price * (it.quantity : ℚ)) (acc ++ [it.product_id]) hnd' hval'
    have hsum : (rest.map (linePrice (setStock ps it.product_id (p.stock - it.quantity)))).sum =
        (rest.map (linePrice ps)).sum := by
      congr 1
      refine List.map_congr_left ?_
      intro it' hmem
      have hne : it'.product_id ≠ it.product_id := by
        intro he
        exact hni (he ▸ List.mem_map_of_mem OrderItemBase.product_id hmem)
      unfold linePrice
      rw [hfind_other it'.product_id hne]
    refine ⟨ps', ?_, ?_, ?_⟩
    · simp only [run_items, hp, if_neg (not_lt.mpr hle)]
      rw [hrun, hsum]
      have hlp : linePrice ps it = p.price * (it.quantity : ℚ) := by
        unfold linePrice; rw [hp]
      simp only [List.map_cons, List.sum_cons, hlp]
      rw [List.append_assoc, List.singleton_append]
      ring_nf
    · intro it' hmem p'' hfind
      rcases List.mem_cons.mp hmem with he | hmem'
      · subst he
        rw [hp] at hfind
        obtain rfl : p = p'' := Option.some.inj hfind
        rw [hother it'.product_id hni]
        rw [findProduct_setStock_self, hp, Option.map_some']
      · have hne : it'.product_id ≠ it.product_id := by
          intro he
          exact hni (he ▸ List.mem_map_of_mem OrderItemBase.product_id hmem')
        exact hdec it' hmem' p'' (by rw [hfind_other it'.product_id hne]; exact hfind)
    · intro pid hpid
      rw [List.map_cons, List.mem_cons] at hpid
      push_neg at hpid
      rw [hother pid hpid.2, hfind_other pid hpid.1]

/-- Sample product of the spec scenario: stock 5, price 10.0. -/
def prodA : Product :=
  { id := 1, name := "A", description := none, price := 10, stock := 5, updated_at := 0 }

/-- Sample database holding just prodA. -/
def db0 : DB :=
  { products := [prodA], orders := [], order_items := [], prescriptions := [],
    lab_orders := [], next_order_id := 1, next_prescription_id := 1, now := 7 }

/-- The spec scenario request: one line, product 1, quantity 3. -/
def reqSingle : OrderCreate :=
  { items := [{ product_id := 1, quantity := 3 }], prescription := none }

/-- A request referencing the absent product id 999. -/
def req999 : OrderCreate :=
  { items := [{ product_id := 999, quantity := 1 }], prescription := none }

/-- A request listing product 1 twice, each line within the starting stock. -/
def reqDup : OrderCreate :=
  { items := [{ product_id := 1, quantity := 3 }, { product_id := 1, quantity := 3 }],
    prescription := none }

/-- C1: a failed order-creation request (absent product or insufficient
stock) aborts with no side effect: the database, in particular every
product's stock and the order table, is identical before and after, and
retrying the same payload reproduces the same outcome. -/
theorem create_order_failure_no_side_effect (db : DB) (req : OrderCreate) (e : ApiError)
    (h : (create_order db req).1 = .error e) :
    (create_order db req).2 = db ∧
    (create_order db req).2.products = db.products ∧
    (create_order db req).2.orders = db.orders ∧
    create_order ((create_order db req).2) req = create_order db req := by
  cases hr : run_items db.products req.items 0 [] with
  | error e' =>
    have h2 : (create_order db req).2 = db := by simp [create_order, hr]
    exact ⟨h2, by rw [h2], by rw [h2], by rw [h2]⟩
  | ok v =>
    obtain ⟨ps, total, pids⟩ := v
    simp [create_order, hr] at h

/-- Witness: the request for the absent product id 999 fails and leaves the
sample database untouched; retrying reproduces the outcome. -/
theorem create_order_failure_no_side_effect_witness :
    (create_order db0 req999).2 = db0 ∧
    (create_order db0 req999).2.products = db0.products ∧
    (create_order db0 req999).2.orders = db0.orders ∧
    create_order ((create_order db0 req999).2) req999 = create_order db0 req999 :=
  create_order_failure_no_side_effect db0 req999
    (.badRequest "404: Product with id 999 not found") (by decide)

/-- C2: an order request referencing the absent product id 999 performs no
writes, but the deliberate 404 HTTPException is swallowed by the blanket
except-Exception branch of create_order and re-raised as HTTP 400 whose
detail is str of the original exception, so the caller sees 400, not the
404 NotFound the code (and spec) intended. -/
theorem create_order_missing_product_wrapped_as_400 :
    create_order db0 req999 = (.error (.badRequest "404: Product with id 999 not found"), db0) ∧
    ∀ d, (create_order db0 req999).1 ≠ .error (.notFound d) := by
  refine ⟨by decide, ?_⟩
  intro d hd
  have h1 : (create_order db0 req999).1 =
      .error (.badRequest "404: Product with id 999 not found") := by decide
  rw [h1] at hd
  exact absurd (Except.error.inj hd) (by simp)

/-- C3: a successful order (stock 5, price 10.0, quantity 3) persists
total_amount 30, but the association rows written through the plain
secondary relationship carry only the two foreign keys: their quantity and
price_at_time columns are left NULL, so the persisted line items do not
record the requested quantity 3 or the snapshot price 10.0. -/
theorem create_order_item_rows_lack_snapshot :
    (create_order db0 reqSingle).1 =
      .ok { id := 1, user_id := none, total_amount := 30, status := "pending", updated_at := 7 } ∧
    (create_order db0 reqSingle).2.order_items =
      [{ order_id := 1, product_id := 1, quantity := none, price_at_time := none }] := by
  constructor
  · simp [create_order, run_items, findProduct, setStock, updateProductRow, db0, prodA, reqSingle]
    norm_num
  · decide

/-- C4 counterexample: in reqDup each line references an existing product
and each requested quantity (3) is at most that product's current stock
(5), yet the operation fails, because the second line is checked against
the working stock already decremented by the first. -/
theorem create_order_duplicate_lines_counterexample :
    findProduct db0.products 1 = some prodA ∧ prodA.stock = 5 ∧
    create_order db0 reqDup =
      (.error (.badRequest "400: Insufficient stock for product A"), db0) := by
  decide

/-- C4 (amended): if the request's product ids are pairwise distinct, every
referenced product exists and every requested quantity is at most that
product's pre-request stock, then order creation succeeds with status
"pending" and total equal to the sum of price times quantity over the
lines, and each referenced product's stock is decremented by its requested
quantity. -/
theorem create_order_success_spec (db : DB) (req : OrderCreate)
    (hnd : (req.items.map OrderItemBase.product_id).Nodup)
    (hval : ∀ it ∈ req.items, ∃ p, findProduct db.products it.product_id = some p ∧
      it.quantity ≤ p.stock) :
    (create_order db req).1 =
      .ok { id := db.next_order_id, user_id := none,
            total_amount := (req.items.map (linePrice db.products)).sum,
            status := "pending", updated_at := db.now } ∧
    (∀ it ∈ req.items, ∀ p, findProduct db.products it.product_id = some p →
      findProduct (create_order db req).2.products it.product_id =
        some { p with stock := p.stock - it.quantity }) := by
  obtain ⟨ps', hrun, hdec, -⟩ := run_items_ok_of_valid req.items db.products 0 [] hnd hval
  constructor
  · simp [create_order, hrun]
  · intro it hmem p hp
    have h2 : (create_order db req).2.products = ps' := by simp [create_order, hrun]
    rw [h2]
    exact hdec it hmem p hp

/-- Witness: the spec scenario (stock 5, price 10.0, quantity 3) yields a
pending order with the computed total and stock decremented to 2. -/
theorem create_order_success_spec_witness :
    (create_order db0 reqSingle).1 =
      .ok { id := 1, user_id := none,
            total_amount := (reqSingle.items.map (linePrice db0.products)).sum,
            status := "pending", updated_at := 7 } ∧
    findProduct (create_order db0 reqSingle).2.products 1 = some { prodA with stock := 2 } := by
  have hval : ∀ it ∈ reqSingle.items, ∃ p,
      findProduct db0.products it.product_id = some p ∧ it.quantity ≤ p.stock := by
    intro it hit
    simp only [reqSingle, List.mem_singleton] at hit
    subst hit
    exact ⟨prodA, rfl, by decide⟩
  have h := create_order_success_spec db0 reqSingle (by decide) hval
  exact ⟨h.1, h.2 { product_id := 1, quantity := 3 } (by simp [reqSingle]) prodA rfl⟩

/-- A product with zero stock, used by the stock-invariant counterexample. -/
def prodZ : Product :=
  { id := 2, name := "Z", description := none, price := 1, stock := 0, updated_at := 0 }

/-- Database holding just prodZ. -/
def db5 : DB :=
  { products := [prodZ], orders := [], order_items := [], prescriptions := [],
    lab_orders := [], next_order_id := 1, next_prescription_id := 1, now := 3 }

/-- C5 counterexample: the stock-adjustment operation accepts a negative
quantity with the "increase" operation without any guard, driving the stock
of a zero-stock product to -1 and persisting it. -/
theorem update_stock_negative_increase_counterexample :
    update_stock db5 2 (-1) "increase" =
      (.ok ("Stock updated successfully", -1),
        { db5 with products := [{ prodZ with stock := -1, updated_at := 3 }] }) ∧
    ({ prodZ with stock := -1, updated_at := 3 } : Product).stock < 0 := by
  decide

/-- C5 (amended): starting from all-non-negative stocks, order creation
preserves non-negativity unconditionally, and stock adjustment and product
update preserve it when the supplied quantity (resp. new stock value) is
non-negative; however "increase" with a negative quantity and a product
update carrying a negative stock are unguarded and can drive stock
negative. -/
theorem stock_nonneg_preserved (db : DB) (hdb : ∀ p ∈ db.products, 0 ≤ p.stock) :
    (∀ req, ∀ p' ∈ (create_order db req).2.products, 0 ≤ p'.stock) ∧
    (∀ pid q op, 0 ≤ q → ∀ p' ∈ (update_stock db pid q op).2.products, 0 ≤ p'.stock) ∧
    (∀ pid pu, 0 ≤ pu.stock → ∀ p' ∈ (update_product db pid pu).2.products, 0 ≤ p'.stock) := by
  refine ⟨?_, ?_, ?_⟩
  · intro req p' hp'
    cases hr : run_items db.products req.items 0 [] with
    | error e =>
      have h2 : (create_order db req).2.products = db.products := by simp [create_order, hr]
      rw [h2] at hp'
      exact hdb p' hp'
    | ok v =>
      obtain ⟨ps, total, pids⟩ := v
      have h2 : (create_order db req).2.products = ps := by simp [create_order, hr]
      rw [h2] at hp'
      exact run_items_stock_nonneg req.items db.products 0 [] ps total pids hr hdb p' hp'
  · intro pid q op hq p' hp'
    by_cases hop : op ∉ valid_operations
    · have h2 : (update_stock db pid q op).2 = db := by simp [update_stock, hop]
      rw [h2] at hp'
      exact hdb p' hp'
    · push_neg at hop
      cases hfp : findProduct db.products pid with
      | none =>
        have h2 : (update_stock db pid q op).2 = db := by simp [update_stock, hop, hfp]
        rw [h2] at hp'
        exact hdb p' hp'
      | some p =>
        have hp0 : 0 ≤ p.stock := hdb p (List.mem_of_find?_eq_some hfp)
        by_cases hguard : op = "decrease" ∧ p.stock < q
        · obtain ⟨hdecr, hlt⟩ := hguard
          subst hdecr
          have h2 : (update_stock db pid q "decrease").2 = db := by
            simp [update_stock, valid_operations, hfp, hlt]
          rw [h2] at hp'
          exact hdb p' hp'
        · have h2 : (update_stock db pid q op).2.products =
              updateProductRow db.products pid (fun r =>
                { r with stock := if op = "increase" then p.stock + q else p.stock - q,
                         updated_at := db.now }) := by
            simp [update_stock, hop, hfp, hguard]
          rw [h2] at hp'
          refine updateProductRow_stock_nonneg _ _ _ hdb ?_ p' hp'
          intro r hr
          by_cases hinc : op = "increase"
          · simp only [if_pos hinc]
            omega
          · simp only [if_neg hinc]
            have hdecr : op = "decrease" := by
              simp only [valid_operations, List.mem_cons, List.mem_singleton] at hop
              tauto
            have hle : ¬ p.stock < q := fun hlt => hguard ⟨hdecr, hlt⟩
            omega
  · intro pid pu hpu p' hp'
    cases hfp : findProduct db.products pid with
    | none =>
      have h2 : (update_product db pid pu).2 = db := by simp [update_product, hfp]
      rw [h2] at hp'
      exact hdb p' hp'
    | some p =>
      by_cases hname : pu.name ≠ p.name ∧ (db.products.find? (fun q => q.name == pu.name)).isSome
      · have h2 : (update_product db pid pu).2 = db := by simp [update_product, hfp, hname]
        rw [h2] at hp'
        exact hdb p' hp'
      · have h2 : (update_product db pid pu).2.products =
            updateProductRow db.products pid (fun r =>
              { r with name := pu.name, description := pu.description, price := pu.price,
                       stock := pu.stock, updated_at := db.now }) := by
          simp only [update_product, hfp]
          rw [if_neg hname]
        rw [h2] at hp'
        refine updateProductRow_stock_nonneg _ _ _ hdb ?_ p' hp'
        intro r hr
        simpa using hpu

/-- Witness: increasing prodA's stock by 3 keeps it non-negative. -/
theorem stock_nonneg_preserved_witness :
    (0 : Int) ≤ ({ prodA with stock := 8, updated_at := 7 } : Product).stock :=
  (stock_nonneg_preserved db0 (by decide)).2.1 1 3 "increase" (by decide)
    { prodA with stock := 8, updated_at := 7 } (by decide)

/-- C6: for an existing product, "decrease" fails with the 400 Conflict
"Insufficient stock" and leaves the database unchanged exactly when the new
stock would be negative (stock < quantity), and otherwise subtracts the
quantity; "increase" adds the quantity; each successful branch stamps
updated_at with the current time and persists the updated row. -/
theorem update_stock_spec (db : DB) (pid : Nat) (q : Int) (p : Product)
    (hp : findProduct db.products pid = some p) :
    (p.stock < q →
      update_stock db pid q "decrease" = (.error (.badRequest "Insufficient stock"), db)) ∧
    (q ≤ p.stock →
      update_stock db pid q "decrease" =
        (.ok ("Stock updated successfully", p.stock - q),
          { db with products := updateProductRow db.products pid (fun r => { r with stock := p.stock - q, updated_at := db.now }) }) ∧
      findProduct (update_stock db pid q "decrease").2.products pid =
        some { p with stock := p.stock - q, updated_at := db.now }) ∧
    (update_stock db pid q "increase" =
        (.ok ("Stock updated successfully", p.stock + q),
          { db with products := updateProductRow db.products pid (fun r => { r with stock := p.stock + q, updated_at := db.now }) }) ∧
      findProduct (update_stock db pid q "increase").2.products pid =
        some { p with stock := p.stock + q, updated_at := db.now }) := by
  refine ⟨?_, ?_, ?_⟩
  · intro hlt
    simp [update_stock, valid_operations, hp, hlt]
  · intro hle
    have h1 : update_stock db pid q "decrease" =
        (.ok ("Stock updated successfully", p.stock - q),
          { db with products := updateProductRow db.products pid (fun r => { r with stock := p.stock - q, updated_at := db.now }) }) := by
      simp [update_stock, valid_operations, hp, not_lt.mpr hle]
    refine ⟨h1, ?_⟩
    rw [h1]
    rw [findProduct_update_self db.products pid
      (fun r => { r with stock := p.stock - q, updated_at := db.now }) (fun r => rfl),
      hp, Option.map_some']
  · have h1 : update_stock db pid q "increase" =
        (.ok ("Stock updated successfully", p.stock + q),
          { db with products := updateProductRow db.products pid (fun r => { r with stock := p.stock + q, updated_at := db.now }) }) := by
      simp [update_stock, valid_operations, hp]
    refine ⟨h1, ?_⟩
    rw [h1]
    rw [findProduct_update_self db.products pid
      (fun r => { r with stock := p.stock + q, updated_at := db.now }) (fun r => rfl),
      hp, Option.map_some']

/-- Witness: on prodA (stock 5), decrease by 7 is rejected with stock kept,
decrease by 3 yields stock 2, increase by 3 yields stock 8, both successful
branches stamping updated_at with the current tick. -/
theorem update_stock_spec_witness :
    update_stock db0 1 7 "decrease" = (.error (.badRequest "Insufficient stock"), db0) ∧
    update_stock db0 1 3 "decrease" =
      (.ok ("Stock updated successfully", 2),
        { db0 with products := updateProductRow db0.products 1 (fun r => { r with stock := 2, updated_at := 7 }) }) ∧
    update_stock db0 1 3 "increase" =
      (.ok ("Stock updated successfully", 8),
        { db0 with products := updateProductRow db0.products 1 (fun r => { r with stock := 8, updated_at := 7 }) }) := by
  have h := update_stock_spec db0 1 3 prodA rfl
  have h7 := update_stock_spec db0 1 7 prodA rfl
  exact ⟨h7.1 (by decide), (h.2.1 (by decide)).1, h.2.2.1⟩

/-- A pending lab order, target of the invalid-status update attempt. -/
def labP : LabOrderRow :=
  { id := 1, prescription_id := 1, status := "pending", notes := none, updated_at := 0 }

/-- Database holding just labP. -/
def db7 : DB :=
  { products := [], orders := [], order_items := [], prescriptions := [],
    lab_orders := [labP], next_order_id := 1, next_prescription_id := 1, now := 4 }

/-- C7: a lab-order status update with a value outside the status enum
performs no write and leaves the lab order unchanged, but instead of the
intended 400 Validation response the branch crashes: the str parameter
status shadows the fastapi status module, so status.HTTP_400_BAD_REQUEST
raises an uncaught AttributeError that surfaces as HTTP 500. -/
theorem update_lab_order_status_invalid_value_is_500 :
    update_lab_order_status db7 1 "done" =
      (.error (.internal "AttributeError: str object has no attribute HTTP_400_BAD_REQUEST"),
        db7) ∧
    (update_lab_order_status db7 1 "done").2.lab_orders = [labP] := by
  decide

/-- A completed order, used to exhibit a transition out of a supposedly
terminal state. -/
def orderC : OrderRow :=
  { id := 1, user_id := none, total_amount := 30, status := "completed", updated_at := 0 }

/-- Database holding just orderC. -/
def db8 : DB :=
  { products := [], orders := [orderC], order_items := [], prescriptions := [],
    lab_orders := [], next_order_id := 2, next_prescription_id := 1, now := 9 }

/-- C8 counterexample: the status-update operation moves an order whose
status is "completed" back to "pending": completed is not terminal. -/
theorem update_order_status_completed_to_pending :
    orderC.status = "completed" ∧
    update_order_status db8 1 "pending" =
      (.ok "Order status updated successfully",
        { db8 with orders := [{ orderC with status := "pending", updated_at := 9 }] }) := by
  decide

/-- C8 (amended): the status-update operation assigns any requested status
in the set pending, completed, cancelled to an existing order regardless of
the order's current status — the only guards are on the requested value and
on the order's existence, so completed and cancelled are not terminal; only
the creation workflow itself always produces "pending". -/
theorem update_order_status_sets_any_valid (db : DB) (oid : Nat) (st : String) (o : OrderRow)
    (hst : st ∈ order_valid_statuses)
    (ho : db.orders.find? (fun o' => o'.id == oid) = some o) :
    update_order_status db oid st =
      (.ok "Order status updated successfully",
        { db with orders := db.orders.map (fun o' => if o'.id == oid then { o' with status := st, updated_at := db.now } else o') }) ∧
    (update_order_status db oid st).2.orders.find? (fun o' => o'.id == oid) =
      some { o with status := st, updated_at := db.now } := by
  have h1 : update_order_status db oid st =
      (.ok "Order status updated successfully",
        { db with orders := db.orders.map (fun o' => if o'.id == oid then { o' with status := st, updated_at := db.now } else o') }) := by
    simp [update_order_status, hst, ho]
  refine ⟨h1, ?_⟩
  rw [h1]
  rw [find_map_upd_self db.orders (fun o' => o'.id == oid)
    (fun o' => { o' with status := st, updated_at := db.now }) (fun a => rfl),
    ho, Option.map_some']

/-- A cancelled order, used for the witness transition cancelled →
completed. -/
def orderX : OrderRow :=
  { id := 3, user_id := none, total_amount := 5, status := "cancelled", updated_at := 0 }

/-- Database holding just orderX. -/
def db8b : DB :=
  { products := [], orders := [orderX], order_items := [], prescriptions := [],
    lab_orders := [], next_order_id := 4, next_prescription_id := 1, now := 11 }

/-- Witness: a cancelled order is moved to completed by the status-update
operation. -/
theorem update_order_status_sets_any_valid_witness :
    update_order_status db8b 3 "completed" =
      (.ok "Order status updated successfully",
        { db8b with orders := db8b.orders.map (fun o' => if o'.id == 3 then { o' with status := "completed", updated_at := db8b.now } else o') }) ∧
    (update_order_status db8b 3 "completed").2.orders.find? (fun o' => o'.id == 3) =
      some { orderX with status := "completed", updated_at := 11 } :=
  update_order_status_sets_any_valid db8b 3 "completed" orderX (by decide) (by decide)

/-- C9: order creation does not guard against negative quantities: a line
with a negative quantity on an existing product with non-negative stock
passes the stock check, the working stock grows by the absolute quantity,
and the running total shrinks by price times the absolute quantity. -/
theorem run_items_negative_quantity (ps : List Product) (it : OrderItemBase)
    (rest : List OrderItemBase) (total : ℚ) (acc : List Nat) (p : Product)
    (hp : findProduct ps it.product_id = some p) (hst : 0 ≤ p.stock)
    (hq : it.quantity < 0) :
    ¬ p.stock < it.quantity ∧
    run_items ps (it :: rest) total acc =
      run_items (setStock ps it.product_id (p.stock - it.quantity)) rest
        (total + p.price * (it.quantity : ℚ)) (acc ++ [it.product_id]) ∧
    findProduct (setStock ps it.product_id (p.stock - it.quantity)) it.product_id =
      some { p with stock := p.stock - it.quantity } ∧
    p.stock - it.quantity = p.stock + (it.quantity.natAbs : Int) ∧
    total + p.price * (it.quantity : ℚ) =
      total - p.price * ((it.quantity.natAbs : Nat) : ℚ) := by
  have hnlt : ¬ p.stock < it.quantity := by omega
  refine ⟨hnlt, ?_, ?_, by omega, ?_⟩
  · simp only [run_items, hp, if_neg hnlt]
  · rw [findProduct_setStock_self, hp, Option.map_some']
  · have h2 : ((it.quantity.natAbs : Nat) : ℚ) = -((it.quantity : Int) : ℚ) := by
      rw [Int.cast_natAbs, abs_of_neg hq, Int.cast_neg]
    rw [h2]
    ring

/-- Witness: one line of quantity -2 against prodA (stock 5, price 10)
passes the check, raises the working stock to 7 and lowers the running
total by 20. -/
theorem run_items_negative_quantity_witness :
    run_items [prodA] [{ product_id := 1, quantity := -2 }] 0 [] =
      run_items (setStock [prodA] 1 (prodA.stock - (-2))) []
        (0 + prodA.price * (((-2 : Int)) : ℚ)) ([] ++ [1]) ∧
    findProduct (setStock [prodA] 1 (prodA.stock - (-2))) 1 =
      some { prodA with stock := prodA.stock - (-2) } ∧
    prodA.stock - (-2) = prodA.stock + (((-2 : Int).natAbs : Nat) : Int) ∧
    (0 : ℚ) + prodA.price * (((-2 : Int)) : ℚ) =
      0 - prodA.price * ((((-2 : Int).natAbs : Nat)) : ℚ) :=
  (run_items_negative_quantity [prodA] { product_id := 1, quantity := -2 } [] 0 [] prodA
    rfl (by decide) (by decide)).2

/-- C10: every order persisted by create_order has a NULL user_id — the
constructor call never sets the column and no request field feeds it — so
the required integer user_id of OrderResponse can never be populated from
the row. -/
theorem create_order_user_id_none (db : DB) (req : OrderCreate) (o : OrderRow) (db' : DB)
    (h : create_order db req = (.ok o, db')) :
    o.user_id = none ∧ orderResponseOfOrder o = none := by
  cases hr : run_items db.products req.items 0 [] with
  | error e => simp [create_order, hr] at h
  | ok v =>
    obtain ⟨ps, total, pids⟩ := v
    simp only [create_order, hr, Prod.mk.injEq, Except.ok.injEq] at h
    obtain ⟨ho, -⟩ := h
    rw [← ho]
    exact ⟨rfl, rfl⟩

/-- The order row produced by the spec scenario. -/
def orderW : OrderRow :=
  { id := 1, user_id := none, total_amount := 30, status := "pending", updated_at := 7 }

/-- The database state after the spec scenario. -/
def dbW : DB :=
  { products := [{ prodA with stock := 2 }], orders := [orderW],
    order_items := [{ order_id := 1, product_id := 1, quantity := none, price_at_time := none }],
    prescriptions := [], lab_orders := [],
    next_order_id := 2, next_prescription_id := 1, now := 7 }

/-- Witness: the order created by the spec scenario has user_id NULL and
cannot be serialised into the response model requiring an integer. -/
theorem create_order_user_id_none_witness :
    orderW.user_id = none ∧ orderResponseOfOrder orderW = none :=
  create_order_user_id_none db0 reqSingle orderW dbW (by
    simp [create_order, run_items, findProduct, setStock, updateProductRow, db0, prodA,
      reqSingle, orderW, dbW]
    norm_num)

end OpticaPos
